import Mathlib

/-!
Shallow embedding of the connection multiplexer in src/transport/combined.rs
(crate hyperswarm-rs): the CombinedTransport facade over a TCP and a uTP
transport, its connection arbiter (on_connection), the merged poll loop
(poll_next), bind, connect and the CombinedStream tagged union.

Modelling conventions:
- Socket addresses (std SocketAddr) are an opaque equality-comparable type,
  modelled as Nat.
- io Errors are passed through opaquely, modelled as Nat.
- The HashSet of connected peers is modelled as a Finset of addresses.
- The two underlying transports (TcpTransport, UtpTransport, defined outside
  the source of this file) are external collaborators: their poll behaviour is a
  queue of poll outcomes consumed one per call, their bind and connect
  behaviours are oracles / recorded call traces.
- Panics (unwrap) are modelled as the none case of Option.
-/

/-- Socket addresses, modelled as an opaque equality-comparable type. -/
abbrev Addr := Nat

/-- Opaque io error values. -/
abbrev IoErr := Nat

instance {ε α : Type} [DecidableEq ε] [DecidableEq α] :
    DecidableEq (Except ε α) := fun a b =>
  match a, b with
  | .error e1, .error e2 =>
    if h : e1 = e2 then .isTrue (by rw [h])
    else .isFalse (by intro hc; cases hc; exact h rfl)
  | .error _, .ok _ => .isFalse (by intro hc; cases hc)
  | .ok _, .error _ => .isFalse (by intro hc; cases hc)
  | .ok a1, .ok a2 =>
    if h : a1 = a2 then .isTrue (by rw [h])
    else .isFalse (by intro hc; cases hc; exact h rfl)

/-- Modelled from the spec: the TCP stream collaborator (super::tcp::TcpStream,
not in the given source). Its peer address accessor is fallible (the source
calls .unwrap() on it), so the stream carries the result that accessor
returns. -/
structure TcpStream where
  peer_addr : Except IoErr Addr
deriving DecidableEq

/-- Modelled from the spec: the uTP stream collaborator (super::utp::UtpStream,
not in the given source). Its peer address accessor is infallible (the source
calls it without unwrap), so the stream carries the address it returns. -/
structure UtpStream where
  peer_addr : Addr
deriving DecidableEq

/-- Modelled from the spec: the Connection record of super (src/transport),
{underlying stream handle, peer address, initiator flag, protocol
identifier}, with constructor new and destructor into_parts as used by
combined.rs. -/
structure Connection (T : Type) where
  stream : T
  peer_addr : Addr
  is_initiator : Bool
  protocol : String
deriving DecidableEq

/-- Connection::new as used in on_connection. -/
def Connection.new {T : Type} (stream : T) (peer_addr : Addr)
    (is_initiator : Bool) (protocol : String) : Connection T :=
  ⟨stream, peer_addr, is_initiator, protocol⟩

/-- Connection::into_parts as used in on_connection. -/
def Connection.into_parts {T : Type} (c : Connection T) :
    T × Addr × Bool × String :=
  (c.stream, c.peer_addr, c.is_initiator, c.protocol)

/-- The tagged union CombinedStream over the two underlying stream types
(enum CombinedStream in combined.rs, with the transport_utp feature on, as
the spec describes both protocols). -/
inductive CombinedStream where
  | tcp (stream : TcpStream)
  | utp (stream : UtpStream)
deriving DecidableEq

/-- CombinedStream::peer_addr: dispatch on the variant; the Tcp arm unwraps a
fallible result (none models the panic), the Utp arm is direct. -/
def CombinedStream.peer_addr : CombinedStream → Option Addr
  | .tcp stream => stream.peer_addr.toOption
  | .utp stream => some stream.peer_addr

/-- CombinedStream::protocol: the stable protocol identifier per variant. -/
def CombinedStream.protocol : CombinedStream → String
  | .tcp _ => "tcp"
  | .utp _ => "utp"

/-- The result of polling an underlying transport stream once:
Poll::Pending, Poll::Ready(None), or Poll::Ready(Some(item)). -/
inductive PollR (α : Type) where
  | pending
  | ready (item : Option α)
deriving DecidableEq

/-- The facade state owned by struct CombinedTransport itself: the resolved
local address and the connected-peer HashSet. The tcp and utp transports it
also owns are external collaborators, modelled separately as poll queues and
call traces. -/
structure CombinedTransport where
  local_addr : Addr
  connected : Finset Addr
deriving DecidableEq

/-- Modelled from the spec: the bind behaviour of the two underlying
transports (TcpTransport::bind and UtpTransport::bind, not in the given
source). tcpBind, applied to the requested address, fails or yields the
transport whose local_addr() is the concrete resolved address; utpBind,
applied to an address, fails or succeeds. -/
structure BindEnv where
  tcpBind : Addr → Except IoErr Addr
  utpBind : Addr → Except IoErr Unit

/-- CombinedTransport::bind: bind tcp to the requested address, resolve the
concrete bound address from it, bind utp to that same resolved address,
propagating either failure; on success the facade holds the resolved address
and an empty connected set. -/
def CombinedTransport.bind (env : BindEnv) (local_addr : Addr) :
    Except IoErr CombinedTransport :=
  match env.tcpBind local_addr with
  | .error e => .error e
  | .ok resolved =>
    match env.utpBind resolved with
    | .error e => .error e
    | .ok _ => .ok { local_addr := resolved, connected := ∅ }

/-- CombinedTransport::connect: forwards the peer address to the underlying
connect of every configured protocol and returns nothing. The returned list
is the trace of underlying connect invocations (protocol identifier and
argument), in call order; the facade state is the first component. -/
def CombinedTransport.connect (s : CombinedTransport) (peer_addr : Addr) :
    CombinedTransport × List (String × Addr) :=
  (s, [("tcp", peer_addr), ("utp", peer_addr)])

/-- CombinedTransport::on_connection: the connection arbiter. Inbound
(is_initiator false) connections are always taken; outbound connections are
taken iff the peer address is not yet in the connected set, inserting it when
taken; taken connections are rebuilt with the stream wrapped by map, dropped
ones yield none. -/
def CombinedTransport.on_connection {T : Type} (s : CombinedTransport)
    (conn : Connection T) (map : T → CombinedStream) :
    CombinedTransport × Option (Except IoErr (Connection CombinedStream)) :=
  let parts := conn.into_parts
  let stream := parts.1
  let peer_addr := parts.2.1
  let is_initiator := parts.2.2.1
  let protocol := parts.2.2.2
  let st : CombinedTransport × Bool :=
    if !is_initiator then
      (s, true)
    else
      if peer_addr ∉ s.connected then
        ({ s with connected := insert peer_addr s.connected }, true)
      else
        (s, false)
  if st.2 then
    (st.1, some (.ok (Connection.new (map stream) peer_addr is_initiator protocol)))
  else
    (st.1, none)

/-- CombinedTransport::on_poll_connection: adapt one underlying poll result:
Pending and Ready(None) produce nothing, an error is passed through as is,
and a completed connection goes to the arbiter. -/
def CombinedTransport.on_poll_connection {T : Type} (s : CombinedTransport)
    (poll : PollR (Except IoErr (Connection T))) (map : T → CombinedStream) :
    CombinedTransport × Option (Except IoErr (Connection CombinedStream)) :=
  match poll with
  | .pending => (s, none)
  | .ready none => (s, none)
  | .ready (some (.error e)) => (s, some (.error e))
  | .ready (some (.ok conn)) => s.on_connection conn map

/-- The poll behaviour of the two underlying transport streams, modelled as
queues of poll outcomes consumed one element per poll call (an exhausted
queue polls as Pending). -/
structure TransportQueues where
  tcp : List (PollR (Except IoErr (Connection TcpStream)))
  utp : List (PollR (Except IoErr (Connection UtpStream)))
deriving DecidableEq

/-- Poll an underlying transport stream once: take the head of its queue
(Pending when exhausted). -/
def pollOne {α : Type} : List (PollR α) → PollR α × List (PollR α)
  | [] => (.pending, [])
  | p :: rest => (p, rest)

/-- Stream::poll_next for CombinedTransport: poll tcp first and run its
result through on_poll_connection; if that surfaces an item, return it
without touching utp; otherwise poll utp the same way; if neither surfaces
an item, the merged stream is Pending. -/
def CombinedTransport.poll_next (s : CombinedTransport) (q : TransportQueues) :
    CombinedTransport × TransportQueues ×
      PollR (Except IoErr (Connection CombinedStream)) :=
  let tn := pollOne q.tcp
  match s.on_poll_connection tn.1 CombinedStream.tcp with
  | (s1, some res) => (s1, ⟨tn.2, q.utp⟩, .ready (some res))
  | (s1, none) =>
    let un := pollOne q.utp
    match s1.on_poll_connection un.1 CombinedStream.utp with
    | (s2, some res) => (s2, ⟨tn.2, un.2⟩, .ready (some res))
    | (s2, none) => (s2, ⟨tn.2, un.2⟩, .pending)

/-- Iterate poll_next n times, collecting the outputs in order. -/
def CombinedTransport.runPolls (s : CombinedTransport) (q : TransportQueues) :
    Nat → CombinedTransport × TransportQueues ×
      List (PollR (Except IoErr (Connection CombinedStream)))
  | 0 => (s, q, [])
  | n + 1 =>
    let r := s.poll_next q
    let rest := CombinedTransport.runPolls r.1 r.2.1 n
    (rest.1, rest.2.1, r.2.2 :: rest.2.2)

/-- The peer addresses of the accepted outbound connections among a single
merged poll output. -/
def outPeer : PollR (Except IoErr (Connection CombinedStream)) → Finset Addr
  | .ready (some (.ok c)) => if c.is_initiator then {c.peer_addr} else ∅
  | _ => ∅

/-- The peer addresses of the accepted outbound connections among a list of
merged poll outputs. -/
def outboundPeers : List (PollR (Except IoErr (Connection CombinedStream))) →
    Finset Addr
  | [] => ∅
  | p :: rest => outPeer p ∪ outboundPeers rest

/-- The peer addresses of the accepted outbound connections among one
arbitration result. -/
def outPeerOpt : Option (Except IoErr (Connection CombinedStream)) → Finset Addr
  | some (.ok c) => if c.is_initiator then {c.peer_addr} else ∅
  | _ => ∅

/-! Helper lemmas: case equations for the arbiter and the poll adapter. -/

theorem on_connection_inbound {T : Type} (s : CombinedTransport)
    (conn : Connection T) (map : T → CombinedStream)
    (h : conn.is_initiator = false) :
    s.on_connection conn map =
      (s, some (.ok (Connection.new (map conn.stream) conn.peer_addr
        conn.is_initiator conn.protocol))) := by
  simp [CombinedTransport.on_connection, Connection.into_parts, h]

theorem on_connection_outbound_new {T : Type} (s : CombinedTransport)
    (conn : Connection T) (map : T → CombinedStream)
    (h1 : conn.is_initiator = true) (h2 : conn.peer_addr ∉ s.connected) :
    s.on_connection conn map =
      ({ s with connected := insert conn.peer_addr s.connected },
       some (.ok (Connection.new (map conn.stream) conn.peer_addr
         conn.is_initiator conn.protocol))) := by
  simp [CombinedTransport.on_connection, Connection.into_parts, h1, h2]

theorem on_connection_outbound_dup {T : Type} (s : CombinedTransport)
    (conn : Connection T) (map : T → CombinedStream)
    (h1 : conn.is_initiator = true) (h2 : conn.peer_addr ∈ s.connected) :
    s.on_connection conn map = (s, none) := by
  simp [CombinedTransport.on_connection, Connection.into_parts, h1, h2]

theorem on_poll_pending {T : Type} (s : CombinedTransport)
    (map : T → CombinedStream) :
    s.on_poll_connection .pending map = (s, none) := rfl

theorem on_poll_ready_none {T : Type} (s : CombinedTransport)
    (map : T → CombinedStream) :
    s.on_poll_connection (.ready none) map = (s, none) := rfl

theorem on_poll_err {T : Type} (s : CombinedTransport) (e : IoErr)
    (map : T → CombinedStream) :
    s.on_poll_connection (.ready (some (.error e))) map =
      (s, some (.error e)) := rfl

theorem on_poll_ok {T : Type} (s : CombinedTransport) (conn : Connection T)
    (map : T → CombinedStream) :
    s.on_poll_connection (.ready (some (.ok conn))) map =
      s.on_connection conn map := rfl

theorem on_connection_none {T : Type} {s s1 : CombinedTransport}
    {conn : Connection T} {map : T → CombinedStream}
    (h : s.on_connection conn map = (s1, none)) : s1 = s := by
  cases h1 : conn.is_initiator with
  | false => rw [on_connection_inbound s conn map h1] at h; simp at h
  | true =>
    by_cases h2 : conn.peer_addr ∈ s.connected
    · rw [on_connection_outbound_dup s conn map h1 h2] at h
      exact (Prod.ext_iff.mp h).1.symm
    · rw [on_connection_outbound_new s conn map h1 h2] at h
      simp at h

theorem on_poll_none {T : Type} {s s1 : CombinedTransport}
    {poll : PollR (Except IoErr (Connection T))} {map : T → CombinedStream}
    (h : s.on_poll_connection poll map = (s1, none)) : s1 = s := by
  match poll with
  | .pending => rw [on_poll_pending] at h; exact (Prod.ext_iff.mp h).1.symm
  | .ready none => rw [on_poll_ready_none] at h; exact (Prod.ext_iff.mp h).1.symm
  | .ready (some (.error e)) => rw [on_poll_err] at h; simp at h
  | .ready (some (.ok conn)) => rw [on_poll_ok] at h; exact on_connection_none h

theorem outPeer_ready_some (res : Except IoErr (Connection CombinedStream)) :
    outPeer (.ready (some res)) = outPeerOpt (some res) := by
  cases res <;> rfl

theorem on_connection_connected {T : Type} (s : CombinedTransport)
    (conn : Connection T) (map : T → CombinedStream) :
    (s.on_connection conn map).1.connected =
      s.connected ∪ outPeerOpt (s.on_connection conn map).2 := by
  cases h1 : conn.is_initiator with
  | false =>
    rw [on_connection_inbound s conn map h1]
    simp [outPeerOpt, Connection.new, h1]
  | true =>
    by_cases h2 : conn.peer_addr ∈ s.connected
    · rw [on_connection_outbound_dup s conn map h1 h2]
      simp [outPeerOpt]
    · rw [on_connection_outbound_new s conn map h1 h2]
      simp only [outPeerOpt, Connection.new, h1, if_true]
      rw [Finset.insert_eq, Finset.union_comm]

theorem on_poll_connected {T : Type} (s : CombinedTransport)
    (poll : PollR (Except IoErr (Connection T))) (map : T → CombinedStream) :
    (s.on_poll_connection poll map).1.connected =
      s.connected ∪ outPeerOpt (s.on_poll_connection poll map).2 := by
  match poll with
  | .pending => simp [on_poll_pending, outPeerOpt]
  | .ready none => simp [on_poll_ready_none, outPeerOpt]
  | .ready (some (.error e)) => simp [on_poll_err, outPeerOpt]
  | .ready (some (.ok conn)) => rw [on_poll_ok]; exact on_connection_connected s conn map

theorem pollOne_snd {α : Type} (l : List (PollR α)) : (pollOne l).2 = l.tail := by
  cases l <;> rfl

theorem pollOne_cons {α : Type} (p : PollR α) (rest : List (PollR α)) :
    pollOne (p :: rest) = (p, rest) := rfl

theorem poll_next_connected (s : CombinedTransport) (q : TransportQueues) :
    (s.poll_next q).1.connected = s.connected ∪ outPeer (s.poll_next q).2.2 := by
  rcases h1 : s.on_poll_connection (pollOne q.tcp).1 CombinedStream.tcp with ⟨s1, o1⟩
  have hc1 := on_poll_connected s (pollOne q.tcp).1 CombinedStream.tcp
  rw [h1] at hc1
  cases o1 with
  | some res =>
    simp only [CombinedTransport.poll_next, h1]
    rw [outPeer_ready_some]
    exact hc1
  | none =>
    have hs1 : s1 = s := on_poll_none h1
    rcases h2 : s1.on_poll_connection (pollOne q.utp).1 CombinedStream.utp with ⟨s2, o2⟩
    have hc2 := on_poll_connected s1 (pollOne q.utp).1 CombinedStream.utp
    rw [h2] at hc2
    cases o2 with
    | some res =>
      simp only [CombinedTransport.poll_next, h1, h2]
      rw [outPeer_ready_some, hc2, hs1]
    | none =>
      have hs2 : s2 = s1 := on_poll_none h2
      simp only [CombinedTransport.poll_next, h1, h2]
      simp [outPeer, hs2, hs1]

theorem runPolls_succ (s : CombinedTransport) (q : TransportQueues) (n : Nat) :
    s.runPolls q (n + 1) =
      (((s.poll_next q).1.runPolls (s.poll_next q).2.1 n).1,
       ((s.poll_next q).1.runPolls (s.poll_next q).2.1 n).2.1,
       (s.poll_next q).2.2 ::
         ((s.poll_next q).1.runPolls (s.poll_next q).2.1 n).2.2) := rfl

theorem runPolls_connected (s : CombinedTransport) (q : TransportQueues) (n : Nat) :
    (s.runPolls q n).1.connected =
      s.connected ∪ outboundPeers (s.runPolls q n).2.2 := by
  induction n generalizing s q with
  | zero => simp [CombinedTransport.runPolls, outboundPeers]
  | succ n ih =>
    rw [runPolls_succ]
    simp only [outboundPeers]
    rw [ih, poll_next_connected, Finset.union_assoc]

/-! Claim theorems. -/

/-- Claim C1: for every connection delivered to the arbiter, an inbound
connection (initiator false) is accepted unconditionally; an outbound
connection is accepted iff its peer address is absent from the connected-peer
set at that moment, the address being inserted in the accepting case; when
the address is present the connection is dropped and the arbiter yields
nothing for it, never an error. -/
theorem claim_C1 {T : Type} (s : CombinedTransport) (conn : Connection T)
    (map : T → CombinedStream) :
    (conn.is_initiator = false →
      s.on_connection conn map =
        (s, some (.ok (Connection.new (map conn.stream) conn.peer_addr
          conn.is_initiator conn.protocol)))) ∧
    (conn.is_initiator = true → conn.peer_addr ∉ s.connected →
      s.on_connection conn map =
        ({ s with connected := insert conn.peer_addr s.connected },
         some (.ok (Connection.new (map conn.stream) conn.peer_addr
           conn.is_initiator conn.protocol)))) ∧
    (conn.is_initiator = true → conn.peer_addr ∈ s.connected →
      s.on_connection conn map = (s, none)) :=
  ⟨on_connection_inbound s conn map,
   on_connection_outbound_new s conn map,
   on_connection_outbound_dup s conn map⟩

/-- Witness for claim C1 at concrete inputs: an inbound connection is taken
as is, a fresh outbound connection is taken inserting its peer, and an
outbound connection to an already-connected peer is dropped. -/
theorem claim_C1_witness :
    ((⟨0, {7}⟩ : CombinedTransport).on_connection
        (⟨⟨5⟩, 5, false, "utp"⟩ : Connection UtpStream) CombinedStream.utp =
      (⟨0, {7}⟩, some (.ok ⟨.utp ⟨5⟩, 5, false, "utp"⟩))) ∧
    ((⟨0, {7}⟩ : CombinedTransport).on_connection
        (⟨⟨5⟩, 5, true, "utp"⟩ : Connection UtpStream) CombinedStream.utp =
      (⟨0, insert 5 {7}⟩, some (.ok ⟨.utp ⟨5⟩, 5, true, "utp"⟩))) ∧
    ((⟨0, {7}⟩ : CombinedTransport).on_connection
        (⟨⟨7⟩, 7, true, "utp"⟩ : Connection UtpStream) CombinedStream.utp =
      (⟨0, {7}⟩, none)) :=
  ⟨(claim_C1 ⟨0, {7}⟩ ⟨⟨5⟩, 5, false, "utp"⟩ CombinedStream.utp).1 rfl,
   (claim_C1 ⟨0, {7}⟩ ⟨⟨5⟩, 5, true, "utp"⟩ CombinedStream.utp).2.1 rfl (by decide),
   (claim_C1 ⟨0, {7}⟩ ⟨⟨7⟩, 7, true, "utp"⟩ CombinedStream.utp).2.2 rfl (by decide)⟩

/-- Claim C4: bind binds the first protocol (tcp) to the requested address,
resolves the concrete bound address, binds the remaining protocol (utp) to
that same resolved address which also becomes the facade local address; any
underlying bind failure is returned synchronously and no facade value is
constructed. -/
theorem claim_C4 (env : BindEnv) (local_addr : Addr) :
    (∀ e : IoErr, env.tcpBind local_addr = .error e →
      CombinedTransport.bind env local_addr = .error e) ∧
    (∀ (resolved : Addr) (e : IoErr), env.tcpBind local_addr = .ok resolved →
      env.utpBind resolved = .error e →
      CombinedTransport.bind env local_addr = .error e) ∧
    (∀ resolved : Addr, env.tcpBind local_addr = .ok resolved →
      env.utpBind resolved = .ok () →
      CombinedTransport.bind env local_addr =
        .ok { local_addr := resolved, connected := ∅ }) := by
  refine ⟨?_, ?_, ?_⟩
  · intro e h
    simp [CombinedTransport.bind, h]
  · intro resolved e h1 h2
    simp [CombinedTransport.bind, h1, h2]
  · intro resolved h1 h2
    simp [CombinedTransport.bind, h1, h2]

/-- Witness for claim C4 at concrete inputs: a bind environment that resolves
an address to its successor binds both protocols and yields the facade at the
resolved address with an empty connected set, and one whose utp bind fails
propagates the error. -/
theorem claim_C4_witness :
    (CombinedTransport.bind ⟨fun a => .ok (a + 1), fun _ => .ok ()⟩ 5 =
      .ok { local_addr := 6, connected := ∅ }) ∧
    (CombinedTransport.bind ⟨fun a => .ok (a + 1), fun _ => .error 3⟩ 5 =
      .error 3) :=
  ⟨(claim_C4 ⟨fun a => .ok (a + 1), fun _ => .ok ()⟩ 5).2.2 6 rfl rfl,
   (claim_C4 ⟨fun a => .ok (a + 1), fun _ => .error 3⟩ 5).2.1 6 3 rfl rfl⟩

/-- Claim C5: connect forwards the peer address to the underlying connect of
each configured protocol exactly once, in configuration order, returns no
success or failure value, and leaves the facade state (connected-peer set and
local address) unchanged. -/
theorem claim_C5 (s : CombinedTransport) (peer_addr : Addr) :
    (s.connect peer_addr).1 = s ∧
    (s.connect peer_addr).2 = [("tcp", peer_addr), ("utp", peer_addr)] :=
  ⟨rfl, rfl⟩

/-- Witness for claim C5 at a concrete input. -/
theorem claim_C5_witness :
    ((⟨4, {2}⟩ : CombinedTransport).connect 9).1 = (⟨4, {2}⟩ : CombinedTransport) ∧
    ((⟨4, {2}⟩ : CombinedTransport).connect 9).2 = [("tcp", 9), ("utp", 9)] :=
  claim_C5 ⟨4, {2}⟩ 9

/-- Claim C2: starting from an empty connected-peer set, after any number of
merged polls the connected-peer set equals the set of distinct peer addresses
of the accepted outbound connections yielded so far (hence at most one entry
per such peer), and whenever a poll yields an accepted outbound connection
its peer address is in the set the moment the connection is handed to the
caller. -/
theorem claim_C2 (s : CombinedTransport) (q : TransportQueues) (n : Nat)
    (h : s.connected = ∅) :
    (s.runPolls q n).1.connected = outboundPeers (s.runPolls q n).2.2 ∧
    (∀ (s1 : CombinedTransport) (q1 : TransportQueues)
       (c : Connection CombinedStream),
      (s1.poll_next q1).2.2 = .ready (some (.ok c)) → c.is_initiator = true →
      c.peer_addr ∈ (s1.poll_next q1).1.connected) := by
  constructor
  · rw [runPolls_connected, h]
    simp
  · intro s1 q1 c hc hi
    rw [poll_next_connected, hc]
    simp [outPeer, hi]

/-- Witness for claim C2 at a concrete input: one poll of a queue holding a
completed outbound tcp connection to peer 3 leaves the connected set equal to
the outbound peers of the outputs. -/
theorem claim_C2_witness :
    ((⟨0, ∅⟩ : CombinedTransport).runPolls
        ⟨[.ready (some (.ok ⟨⟨.ok 3⟩, 3, true, "tcp"⟩))], []⟩ 1).1.connected =
      outboundPeers ((⟨0, ∅⟩ : CombinedTransport).runPolls
        ⟨[.ready (some (.ok ⟨⟨.ok 3⟩, 3, true, "tcp"⟩))], []⟩ 1).2.2 :=
  (claim_C2 ⟨0, ∅⟩ ⟨[.ready (some (.ok ⟨⟨.ok 3⟩, 3, true, "tcp"⟩))], []⟩ 1 rfl).1

/-- Claim C3: within one merged poll the underlying transports are checked in
the fixed configuration order, each at most once: the tcp queue always
advances by exactly one element, and when processing the tcp poll surfaces a
ready item that item is returned while the utp queue is left untouched;
only when tcp surfaces nothing is utp polled (its queue then advancing by
one element). -/
theorem claim_C3 (s : CombinedTransport) (q : TransportQueues) :
    ((s.poll_next q).2.1.tcp = q.tcp.tail) ∧
    (∀ (s1 : CombinedTransport) (res : Except IoErr (Connection CombinedStream)),
      s.on_poll_connection (pollOne q.tcp).1 CombinedStream.tcp = (s1, some res) →
      (s.poll_next q).2.1.utp = q.utp ∧
        (s.poll_next q).2.2 = .ready (some res)) ∧
    (∀ s1 : CombinedTransport,
      s.on_poll_connection (pollOne q.tcp).1 CombinedStream.tcp = (s1, none) →
      (s.poll_next q).2.1.utp = q.utp.tail) := by
  refine ⟨?_, ?_, ?_⟩
  · rcases h1 : s.on_poll_connection (pollOne q.tcp).1 CombinedStream.tcp with ⟨s1, o1⟩
    cases o1 with
    | some res => simp [CombinedTransport.poll_next, h1, pollOne_snd]
    | none =>
      rcases h2 : s1.on_poll_connection (pollOne q.utp).1 CombinedStream.utp with ⟨s2, o2⟩
      cases o2 <;> simp [CombinedTransport.poll_next, h1, h2, pollOne_snd]
  · intro s1 res h1
    simp [CombinedTransport.poll_next, h1]
  · intro s1 h1
    rcases h2 : s1.on_poll_connection (pollOne q.utp).1 CombinedStream.utp with ⟨s2, o2⟩
    cases o2 <;> simp [CombinedTransport.poll_next, h1, h2, pollOne_snd]

/-- Witness for claim C3 at a concrete input: with an error ready on tcp and
an item queued on utp, the merged poll returns the tcp item and leaves the
utp queue untouched. -/
theorem claim_C3_witness :
    ((⟨0, ∅⟩ : CombinedTransport).poll_next
        ⟨[.ready (some (.error 9))], [.pending]⟩).2.1.utp = [.pending] ∧
    ((⟨0, ∅⟩ : CombinedTransport).poll_next
        ⟨[.ready (some (.error 9))], [.pending]⟩).2.2 = .ready (some (.error 9)) :=
  (claim_C3 ⟨0, ∅⟩ ⟨[.ready (some (.error 9))], [.pending]⟩).2.1
    ⟨0, ∅⟩ (.error 9) rfl

/-- Claim C6: an error yielded by an underlying transport is surfaced by the
merged poll as exactly that error, a single Err item in the same turn, with
the facade state (including the connected-peer set) unchanged, and the
queues advance so polling continues on later calls. -/
theorem claim_C6 (s : CombinedTransport) (q : TransportQueues) (e : IoErr) :
    (∀ (T : Type) (map : T → CombinedStream),
      s.on_poll_connection (.ready (some (.error e))) map =
        (s, some (.error e))) ∧
    (∀ rest, q.tcp = .ready (some (.error e)) :: rest →
      s.poll_next q = (s, ⟨rest, q.utp⟩, .ready (some (.error e)))) ∧
    (∀ (s1 : CombinedTransport) rest,
      s.on_poll_connection (pollOne q.tcp).1 CombinedStream.tcp = (s1, none) →
      q.utp = .ready (some (.error e)) :: rest →
      s.poll_next q = (s, ⟨q.tcp.tail, rest⟩, .ready (some (.error e)))) := by
  refine ⟨fun T map => rfl, ?_, ?_⟩
  · intro rest h
    simp [CombinedTransport.poll_next, h, pollOne, on_poll_err]
  · intro s1 rest h1 h2
    have hs1 : s1 = s := on_poll_none h1
    simp only [CombinedTransport.poll_next, h1, h2, pollOne_cons, on_poll_err,
      pollOne_snd, hs1]

/-- Witness for claim C6 at a concrete input: an error at the head of the tcp
queue is yielded as is with the state unchanged. -/
theorem claim_C6_witness :
    (⟨1, {2}⟩ : CombinedTransport).poll_next ⟨[.ready (some (.error 4))], []⟩ =
      (⟨1, {2}⟩, ⟨[], []⟩, .ready (some (.error 4))) :=
  (claim_C6 ⟨1, {2}⟩ ⟨[.ready (some (.error 4))], []⟩ 4).2.1 [] rfl

/-- Claim C7: the connected-peer set is mutated only by the arbiter during
facade polling and only grows: connect leaves it unchanged, a merged poll
never removes an entry (the old set is contained in the new one), and any
change a merged poll makes is exactly the insertion of the peer address of
the accepted outbound connection yielded in that turn. -/
theorem claim_C7 (s : CombinedTransport) (q : TransportQueues) (peer_addr : Addr) :
    ((s.connect peer_addr).1.connected = s.connected) ∧
    (s.connected ⊆ (s.poll_next q).1.connected) ∧
    ((s.poll_next q).1.connected = s.connected ∨
      ∃ c : Connection CombinedStream, c.is_initiator = true ∧
        (s.poll_next q).2.2 = .ready (some (.ok c)) ∧
        (s.poll_next q).1.connected = insert c.peer_addr s.connected) := by
  refine ⟨rfl, ?_, ?_⟩
  · rw [poll_next_connected]
    exact Finset.subset_union_left
  · rw [poll_next_connected]
    cases ho : (s.poll_next q).2.2 with
    | pending => left; simp [outPeer]
    | ready item =>
      cases item with
      | none => left; simp [outPeer]
      | some res =>
        cases res with
        | error e => left; simp [outPeer]
        | ok c =>
          cases hc : c.is_initiator with
          | false => left; simp [outPeer, hc]
          | true =>
            right
            refine ⟨c, hc, rfl, ?_⟩
            simp [outPeer, hc, Finset.insert_eq, Finset.union_comm]

/-- Witness for claim C7 at a concrete input. -/
theorem claim_C7_witness :
    (((⟨0, {1}⟩ : CombinedTransport).connect 6).1.connected =
      (⟨0, {1}⟩ : CombinedTransport).connected) ∧
    ((⟨0, {1}⟩ : CombinedTransport).connected ⊆
      ((⟨0, {1}⟩ : CombinedTransport).poll_next ⟨[], []⟩).1.connected) ∧
    (((⟨0, {1}⟩ : CombinedTransport).poll_next ⟨[], []⟩).1.connected =
        (⟨0, {1}⟩ : CombinedTransport).connected ∨
      ∃ c : Connection CombinedStream, c.is_initiator = true ∧
        ((⟨0, {1}⟩ : CombinedTransport).poll_next ⟨[], []⟩).2.2 =
          .ready (some (.ok c)) ∧
        ((⟨0, {1}⟩ : CombinedTransport).poll_next ⟨[], []⟩).1.connected =
          insert c.peer_addr (⟨0, {1}⟩ : CombinedTransport).connected) :=
  claim_C7 ⟨0, {1}⟩ ⟨[], []⟩ 6

/-- Claim C8: peer_addr of a unified stream returns the remote endpoint of
the active variant; it fails (the unwrap panic, modelled as none) exactly
when the variant is Tcp and the underlying accessor errors, so under the
precondition that the underlying stream supplies a peer address the failure
branch is unreachable. -/
theorem claim_C8 (s : CombinedStream) :
    (∀ st : UtpStream, s = .utp st → s.peer_addr = some st.peer_addr) ∧
    (∀ (st : TcpStream) (a : Addr), s = .tcp st → st.peer_addr = .ok a →
      s.peer_addr = some a) ∧
    (s.peer_addr = none ↔ ∃ (st : TcpStream) (e : IoErr),
      s = .tcp st ∧ st.peer_addr = .error e) := by
  refine ⟨?_, ?_, ?_⟩
  · intro st h
    subst h
    rfl
  · intro st a h ha
    subst h
    simp [CombinedStream.peer_addr, ha, Except.toOption]
  · cases s with
    | tcp st =>
      cases hst : st.peer_addr with
      | ok a => simp [CombinedStream.peer_addr, hst, Except.toOption]
      | error e =>
        simp only [CombinedStream.peer_addr, hst, Except.toOption]
        constructor
        · intro _
          exact ⟨st, e, rfl, hst⟩
        · intro _
          trivial
    | utp st => simp [CombinedStream.peer_addr]

/-- Witness for claim C8 at concrete inputs: a tcp stream whose accessor
succeeds yields that address, and a utp stream yields its address. -/
theorem claim_C8_witness :
    (CombinedStream.tcp ⟨.ok 5⟩).peer_addr = some 5 ∧
    (CombinedStream.utp ⟨8⟩).peer_addr = some 8 :=
  ⟨(claim_C8 (.tcp ⟨.ok 5⟩)).2.1 ⟨.ok 5⟩ 5 rfl rfl,
   (claim_C8 (.utp ⟨8⟩)).1 ⟨8⟩ rfl⟩

/-- Claim C9: accepting an inbound connection leaves the connected-peer set
unchanged, so a previously accepted inbound connection to a peer never makes
the arbiter drop a later outbound completion to that peer: after the inbound
acceptance the outbound connection to a peer not in the set is still
accepted. -/
theorem claim_C9 {T U : Type} (s : CombinedTransport)
    (cin : Connection T) (cout : Connection U)
    (mapT : T → CombinedStream) (mapU : U → CombinedStream)
    (hin : cin.is_initiator = false)
    (hout : cout.is_initiator = true)
    (hnew : cout.peer_addr ∉ s.connected) :
    (s.on_connection cin mapT).1.connected = s.connected ∧
    ((s.on_connection cin mapT).1.on_connection cout mapU).2 =
      some (.ok (Connection.new (mapU cout.stream) cout.peer_addr
        cout.is_initiator cout.protocol)) := by
  have h1 := on_connection_inbound s cin mapT hin
  rw [h1]
  refine ⟨rfl, ?_⟩
  rw [on_connection_outbound_new s cout mapU hout hnew]

/-- Witness for claim C9 at concrete inputs: after accepting an inbound utp
connection from peer 9, an outbound utp completion to peer 9 is still
accepted. -/
theorem claim_C9_witness :
    (((⟨0, ∅⟩ : CombinedTransport).on_connection
        (⟨⟨9⟩, 9, false, "utp"⟩ : Connection UtpStream)
        CombinedStream.utp).1.connected = (∅ : Finset Addr)) ∧
    ((((⟨0, ∅⟩ : CombinedTransport).on_connection
        (⟨⟨9⟩, 9, false, "utp"⟩ : Connection UtpStream)
        CombinedStream.utp).1.on_connection
        (⟨⟨9⟩, 9, true, "utp"⟩ : Connection UtpStream)
        CombinedStream.utp).2 =
      some (.ok ⟨.utp ⟨9⟩, 9, true, "utp"⟩)) :=
  claim_C9 ⟨0, ∅⟩ ⟨⟨9⟩, 9, false, "utp"⟩ ⟨⟨9⟩, 9, true, "utp"⟩
    CombinedStream.utp CombinedStream.utp rfl rfl (by decide)

/-- Claim C10: every connection the arbiter accepts carries exactly the peer
address, initiator flag and protocol identifier of the underlying connection
it was built from, and its stream is exactly the underlying stream wrapped
into the unified tagged union. -/
theorem claim_C10 {T : Type} (s : CombinedTransport) (conn : Connection T)
    (map : T → CombinedStream) (c : Connection CombinedStream)
    (h : (s.on_connection conn map).2 = some (.ok c)) :
    c.peer_addr = conn.peer_addr ∧ c.is_initiator = conn.is_initiator ∧
    c.protocol = conn.protocol ∧ c.stream = map conn.stream := by
  cases h1 : conn.is_initiator with
  | false =>
    rw [on_connection_inbound s conn map h1] at h
    have h2 : (some (.ok (Connection.new (map conn.stream) conn.peer_addr
        conn.is_initiator conn.protocol)) :
        Option (Except IoErr (Connection CombinedStream))) = some (.ok c) := h
    have h3 := Option.some.inj h2
    injection h3 with h4
    subst h4
    exact ⟨rfl, h1, rfl, rfl⟩
  | true =>
    by_cases hm : conn.peer_addr ∈ s.connected
    · rw [on_connection_outbound_dup s conn map h1 hm] at h
      exact Option.noConfusion h
    · rw [on_connection_outbound_new s conn map h1 hm] at h
      have h2 : (some (.ok (Connection.new (map conn.stream) conn.peer_addr
          conn.is_initiator conn.protocol)) :
          Option (Except IoErr (Connection CombinedStream))) = some (.ok c) := h
      have h3 := Option.some.inj h2
      injection h3 with h4
      subst h4
      exact ⟨rfl, h1, rfl, rfl⟩

/-- Witness for claim C10 at a concrete input: the accepted wrapping of an
inbound tcp connection keeps its peer address, direction, protocol, and
wraps its stream. -/
theorem claim_C10_witness :
    (⟨.tcp ⟨.ok 2⟩, 2, false, "tcp"⟩ : Connection CombinedStream).peer_addr =
        (⟨⟨.ok 2⟩, 2, false, "tcp"⟩ : Connection TcpStream).peer_addr ∧
    (⟨.tcp ⟨.ok 2⟩, 2, false, "tcp"⟩ : Connection CombinedStream).is_initiator =
        (⟨⟨.ok 2⟩, 2, false, "tcp"⟩ : Connection TcpStream).is_initiator ∧
    (⟨.tcp ⟨.ok 2⟩, 2, false, "tcp"⟩ : Connection CombinedStream).protocol =
        (⟨⟨.ok 2⟩, 2, false, "tcp"⟩ : Connection TcpStream).protocol ∧
    (⟨.tcp ⟨.ok 2⟩, 2, false, "tcp"⟩ : Connection CombinedStream).stream =
        CombinedStream.tcp (⟨⟨.ok 2⟩, 2, false, "tcp"⟩ : Connection TcpStream).stream :=
  claim_C10 ⟨0, ∅⟩ ⟨⟨.ok 2⟩, 2, false, "tcp"⟩ CombinedStream.tcp
    ⟨.tcp ⟨.ok 2⟩, 2, false, "tcp"⟩ (by decide)
